import Mathlib

/-
Verification development for the ClawDBot LLM provider-failover manager.

The repository holds two near-identical implementations of the manager:
bot.py (the entry point, run via python bot.py) and clawdbot/bot.py (a
legacy variant of the same class).  The definitions below are a shallow
embedding of the LLMManager of bot.py: pure data is translated directly,
the in-place mutation of provider records becomes explicit state passing,
floats measuring wall-clock latency become Nat milliseconds supplied by
the environment, and the network is an explicit oracle assigning an
outcome to each HTTP request that a call issues.  Exceptions raised by
aiohttp (timeouts, connection errors) and by response parsing are modelled
as explicit outcome constructors, since the Python code converts every one
of them into state mutation plus a returned value.  Where clawdbot/bot.py
differs in behaviour (its _setup_providers appends the LOCAL provider
unconditionally), a separate definition embeds that variant.
-/

/-- One LLM provider record (dataclass LLMProvider of bot.py).  The
float field latency_ms is modelled as Nat milliseconds. -/
structure LLMProvider where
  name : String
  api_base : String
  model : String
  api_key : Option String := none
  timeout : Nat := 60
  healthy : Bool := true
  last_error : Option String := none
  latency_ms : Nat := 0
  deriving DecidableEq

instance : Inhabited LLMProvider :=
  ⟨{ name := "", api_base := "", model := "" }⟩

/-- The configuration fields of Config (bot.py) that the LLM manager
reads.  LOCAL_LLM_API_BASE and LOCAL_LLM_MODEL default to "" when the
environment variable is unset (os.getenv with default ""), while
OPENAI_API_KEY is os.getenv without a default, hence an Option.  The
remaining Config fields (Telegram token, allowed ids, port) never reach
the manager and are omitted. -/
structure Config where
  LOCAL_LLM_API_BASE : String
  LOCAL_LLM_MODEL : String
  LOCAL_LLM_TIMEOUT : Nat
  OPENAI_API_KEY : Option String
  deriving DecidableEq

/-- Python truthiness of an Optional[str]: None and "" are falsy. -/
def truthyOpt : Option String → Bool
  | none => false
  | some s => s ≠ ""

/-- LLMManager._setup_providers of bot.py: appends a LOCAL provider only
when LOCAL_LLM_API_BASE is truthy (with model defaulting to "default"
when LOCAL_LLM_MODEL is falsy), then an OPENAI provider only when
OPENAI_API_KEY is truthy, with the fixed endpoint, model and timeout. -/
def setup_providers (c : Config) : List LLMProvider :=
  (if c.LOCAL_LLM_API_BASE ≠ "" then
    [{ name := "LOCAL",
       api_base := c.LOCAL_LLM_API_BASE,
       model := if c.LOCAL_LLM_MODEL ≠ "" then c.LOCAL_LLM_MODEL else "default",
       timeout := c.LOCAL_LLM_TIMEOUT }]
   else []) ++
  (if truthyOpt c.OPENAI_API_KEY then
    [{ name := "OPENAI",
       api_base := "https://api.openai.com/v1",
       model := "gpt-4o-mini",
       api_key := c.OPENAI_API_KEY,
       timeout := 30 }]
   else [])

/-- LLMManager._setup_providers of the legacy clawdbot/bot.py: the LOCAL
provider is appended unconditionally (even when LOCAL_LLM_API_BASE is
empty and with no "default" model fallback), then the same conditional
OPENAI provider. -/
def clawdbot_setup_providers (c : Config) : List LLMProvider :=
  { name := "LOCAL",
    api_base := c.LOCAL_LLM_API_BASE,
    model := c.LOCAL_LLM_MODEL,
    timeout := c.LOCAL_LLM_TIMEOUT } ::
  (if truthyOpt c.OPENAI_API_KEY then
    [{ name := "OPENAI",
       api_base := "https://api.openai.com/v1",
       model := "gpt-4o-mini",
       api_key := c.OPENAI_API_KEY,
       timeout := 30 }]
   else [])

/-- The mutable state of LLMManager: the provider registry and the
current provider index. -/
structure LLMManager where
  providers : List LLMProvider
  current_provider_index : Nat
  deriving DecidableEq

/-- LLMManager.__init__ of bot.py: index 0, registry built by
_setup_providers. -/
def initManager (c : Config) : LLMManager :=
  { providers := setup_providers c, current_provider_index := 0 }

/-- LLMManager.switch_to_next_provider of bot.py: a guarded rotation of
the current index, a no-op when fewer than two providers exist. -/
def switch_to_next_provider (m : LLMManager) : LLMManager :=
  if m.providers.length ≤ 1 then m
  else { m with current_provider_index :=
          (m.current_provider_index + 1) % m.providers.length }

/-- Outcome of the body of one HTTP POST to a provider, as the Python
code can observe it.  ok means HTTP status 200; wellFormed carries
choices[0].message.content of the parsed JSON body, malformed stands for
a body on which json() or the key lookups raise (carrying str(e) of that
exception).  httpError is any non-200 status together with the measured
round-trip latency and the response body text.  netError is an exception
before any response arrives (timeout, connection refused); no latency is
observed. -/
inductive RespBody where
  | wellFormed (content : String)
  | malformed (errMsg : String)
  deriving DecidableEq

inductive HttpResponse where
  | ok (latencyMs : Nat) (body : RespBody)
  | httpError (latencyMs : Nat) (status : Nat) (bodyText : String)
  | netError (errMsg : String)
  deriving DecidableEq

/-- An outcome is an HTTP-200 success with a parseable body. -/
def isSuccess : HttpResponse → Bool
  | .ok _ (.wellFormed _) => true
  | _ => false

/-- Result dict returned by LLMManager.generate. -/
inductive GenResult where
  | success (provider : String) (model : String) (content : String)
      (latency_ms : Nat)
  | failure (error : String) (provider : String)
  deriving DecidableEq

/-- One role/content pair of the messages argument of generate. -/
structure ChatMessage where
  role : String
  content : String
  deriving DecidableEq

/-- Replace the element at index i (identity when i is out of range);
this renders the Python in-place mutation of the provider object stored
at position i of the registry list. -/
def modifyIdx : List LLMProvider → Nat → (LLMProvider → LLMProvider) →
    List LLMProvider
  | [], _, _ => []
  | p :: ps, 0, f => f p :: ps
  | p :: ps, i + 1, f => p :: modifyIdx ps i f

/-- The fields of a provider that no operation ever writes after
construction. -/
def staticPart (p : LLMProvider) :
    String × String × String × Option String × Nat :=
  (p.name, p.api_base, p.model, p.api_key, p.timeout)

/-- Net effect on the targeted provider's fields of one health_check
call (bot.py): on any response round trip latency_ms and healthy are
written (healthy = (status == 200)) and last_error is additionally set
on a non-200 status; on an exception before a response, healthy and
last_error are written and latency_ms is untouched. -/
def probeUpdate (p : LLMProvider) : HttpResponse → LLMProvider
  | .ok lat _ => { p with latency_ms := lat, healthy := true }
  | .httpError lat status _ =>
      { p with latency_ms := lat, healthy := false,
               last_error := some ("HTTP " ++ toString status) }
  | .netError msg =>
      { p with healthy := false, last_error := some msg }

/-- Return value of health_check: resp.status == 200 in the try branch,
False from the except branch. -/
def probeOk : HttpResponse → Bool
  | .ok _ _ => true
  | _ => false

/-- LLMManager.health_check of bot.py.  The provider argument (a Python
object reference into the registry list) is modelled by its index; none
models the default argument, which targets the current provider and
returns False immediately when the registry is empty (current_provider
is None).  The network outcome of the probe request is the explicit
argument r. -/
def health_check (m : LLMManager) (provIdx : Option Nat) (r : HttpResponse) :
    LLMManager × Bool :=
  match provIdx with
  | none =>
      if m.providers.isEmpty then (m, false)
      else
        ({ m with providers :=
            (modifyIdx m.providers m.current_provider_index
              (fun q => probeUpdate q r)) },
         probeOk r)
  | some i =>
      ({ m with providers := modifyIdx m.providers i (fun q => probeUpdate q r) },
       probeOk r)

/-- Net effect of one iteration of the generate loop on the attempted
provider (bot.py): on HTTP 200 the code writes latency_ms and
healthy := true before parsing the body, so a malformed body still
leaves latency_ms updated while the except branch overwrites healthy and
sets last_error; a non-200 status raises after reading the body text, so
only healthy and last_error change, the error string truncating the body
to 200 characters; a network exception likewise touches only healthy and
last_error. -/
def attemptUpdate (p : LLMProvider) : HttpResponse → LLMProvider
  | .ok lat (.wellFormed _) => { p with latency_ms := lat, healthy := true }
  | .ok lat (.malformed msg) =>
      { p with latency_ms := lat, healthy := false, last_error := some msg }
  | .httpError _ status bodyText =>
      { p with healthy := false,
               last_error :=
                 some ("HTTP " ++ toString status ++ ": " ++ bodyText.take 200) }
  | .netError msg =>
      { p with healthy := false, last_error := some msg }

/-- The value an iteration of the generate loop returns, when it
returns: the success dict on an HTTP-200 response with parseable body,
nothing otherwise (the iteration falls through to rotation). -/
def attemptResult (p : LLMProvider) : HttpResponse → Option GenResult
  | .ok lat (.wellFormed c) => some (.success p.name p.model c lat)
  | _ => none

/-- Write-back of the current provider's mutated fields into the
registry after one loop iteration. -/
def genStep (env : Nat → HttpResponse) (attempts : Nat) (m : LLMManager) :
    LLMManager :=
  { m with providers :=
      (modifyIdx m.providers m.current_provider_index
        (fun q => attemptUpdate q (env attempts))) }

/-- The while loop of LLMManager.generate (bot.py).  env assigns to each
attempt number the outcome of the HTTP request that attempt issues;
maxAttempts is the registry length captured at call entry; fuel equals
maxAttempts - attempts and bounds the remaining iterations, making the
while loop structurally terminating.  The returned list records, in
order, the registry index contacted by each attempt. -/
def generateLoop (env : Nat → HttpResponse) (maxAttempts : Nat) :
    Nat → Nat → LLMManager → LLMManager × List Nat × GenResult
  | 0, _, m => (m, [], GenResult.failure "All providers failed" "NONE")
  | fuel + 1, attempts, m =>
      match attemptResult (m.providers.getD m.current_provider_index default)
          (env attempts) with
      | some res => (genStep env attempts m, [m.current_provider_index], res)
      | none =>
          let m2 := if attempts < maxAttempts - 1
                    then switch_to_next_provider (genStep env attempts m)
                    else genStep env attempts m
          ((generateLoop env maxAttempts fuel (attempts + 1) m2).1,
           m.current_provider_index ::
             (generateLoop env maxAttempts fuel (attempts + 1) m2).2.1,
           (generateLoop env maxAttempts fuel (attempts + 1) m2).2.2)

/-- LLMManager.generate of bot.py.  messages and max_tokens shape only
the request payload, never the control flow, and are carried for
signature fidelity.  Returns the final manager state, the trace of
contacted registry indices, and the result dict. -/
def generate (messages : List ChatMessage) (max_tokens : Nat)
    (env : Nat → HttpResponse) (m : LLMManager) :
    LLMManager × List Nat × GenResult :=
  if m.providers.isEmpty then
    (m, [], GenResult.failure "No LLM providers configured" "NONE")
  else
    generateLoop env m.providers.length m.providers.length 0 m

/-
Concrete fixtures used by witnesses and counterexamples: a two-provider
registry as _setup_providers builds it when both backends are configured,
plus single-provider registries with pre-set diagnostic fields, and a few
network oracles.
-/

def provLOCAL : LLMProvider :=
  { name := "LOCAL", api_base := "http://local.tunnel", model := "llama" }

def provOPENAI : LLMProvider :=
  { name := "OPENAI", api_base := "https://api.openai.com/v1",
    model := "gpt-4o-mini", api_key := some "sk-test", timeout := 30 }

def mgr2 : LLMManager :=
  { providers := [provLOCAL, provOPENAI], current_provider_index := 0 }

def mgr1stale : LLMManager :=
  { providers := [{ provLOCAL with last_error := some "old failure" }],
    current_provider_index := 0 }

def mgr1lat : LLMManager :=
  { providers := [{ provLOCAL with latency_ms := 5 }],
    current_provider_index := 0 }

def envAllFail : Nat → HttpResponse :=
  fun _ => HttpResponse.netError "Cannot connect to host"

def envFirstOk : Nat → HttpResponse :=
  fun _ => HttpResponse.ok 7 (RespBody.wellFormed "Hello")

def envEmptyContent : Nat → HttpResponse :=
  fun _ => HttpResponse.ok 7 (RespBody.wellFormed "")

def envMalformed : Nat → HttpResponse :=
  fun _ => HttpResponse.ok 42 (RespBody.malformed "Expecting value")

def msgsHi : List ChatMessage := [{ role := "user", content := "hi" }]

def cfgNone : Config :=
  { LOCAL_LLM_API_BASE := "", LOCAL_LLM_MODEL := "",
    LOCAL_LLM_TIMEOUT := 60, OPENAI_API_KEY := none }

def cfgBoth : Config :=
  { LOCAL_LLM_API_BASE := "http://local.tunnel", LOCAL_LLM_MODEL := "llama",
    LOCAL_LLM_TIMEOUT := 60, OPENAI_API_KEY := some "sk-test" }

/-
Helper lemmas shared by the claim theorems.
-/

lemma length_modifyIdx (ps : List LLMProvider) (i : Nat)
    (f : LLMProvider → LLMProvider) :
    (modifyIdx ps i f).length = ps.length := by
  induction ps generalizing i with
  | nil => rfl
  | cons a t ih =>
      cases i with
      | zero => rfl
      | succ i => simp [modifyIdx, ih]

lemma getD_modifyIdx_self (ps : List LLMProvider) (i : Nat)
    (f : LLMProvider → LLMProvider) (h : i < ps.length) :
    (modifyIdx ps i f).getD i default = f (ps.getD i default) := by
  induction ps generalizing i with
  | nil => simp at h
  | cons a t ih =>
      cases i with
      | zero => simp [modifyIdx]
      | succ i =>
          simp only [modifyIdx, List.getD_cons_succ]
          exact ih i (by simpa using h)

lemma map_staticPart_modifyIdx (ps : List LLMProvider) (i : Nat)
    (f : LLMProvider → LLMProvider)
    (hf : ∀ q, staticPart (f q) = staticPart q) :
    (modifyIdx ps i f).map staticPart = ps.map staticPart := by
  induction ps generalizing i with
  | nil => rfl
  | cons a t ih =>
      cases i with
      | zero => simp [modifyIdx, hf]
      | succ i => simp [modifyIdx, ih]

lemma staticPart_getD_of_map_eq {l₁ l₂ : List LLMProvider}
    (h : l₁.map staticPart = l₂.map staticPart) (j : Nat) :
    staticPart (l₁.getD j default) = staticPart (l₂.getD j default) := by
  induction l₁ generalizing l₂ j with
  | nil =>
      cases l₂ with
      | nil => rfl
      | cons b t => simp at h
  | cons a t ih =>
      cases l₂ with
      | nil => simp at h
      | cons b t₂ =>
          simp only [List.map_cons, List.cons.injEq] at h
          cases j with
          | zero => simpa using h.1
          | succ j => simpa using ih h.2 j

lemma name_model_of_staticPart_eq {p q : LLMProvider}
    (h : staticPart p = staticPart q) : p.name = q.name ∧ p.model = q.model := by
  simp only [staticPart, Prod.mk.injEq] at h
  exact ⟨h.1, h.2.2.1⟩

lemma staticPart_attemptUpdate (p : LLMProvider) (r : HttpResponse) :
    staticPart (attemptUpdate p r) = staticPart p := by
  cases r with
  | ok lat b => cases b <;> rfl
  | httpError lat st bt => rfl
  | netError msg => rfl

lemma staticPart_probeUpdate (p : LLMProvider) (r : HttpResponse) :
    staticPart (probeUpdate p r) = staticPart p := by
  cases r <;> rfl

lemma attemptResult_eq_none (p : LLMProvider) {r : HttpResponse}
    (h : isSuccess r = false) : attemptResult p r = none := by
  cases r with
  | ok lat b => cases b with
      | wellFormed c => simp [isSuccess] at h
      | malformed msg => rfl
  | httpError lat st bt => rfl
  | netError msg => rfl

lemma isSuccess_elim {r : HttpResponse} (h : isSuccess r = true) :
    ∃ lat c, r = HttpResponse.ok lat (RespBody.wellFormed c) := by
  cases r with
  | ok lat b => cases b with
      | wellFormed c => exact ⟨lat, c, rfl⟩
      | malformed msg => simp [isSuccess] at h
  | httpError lat st bt => simp [isSuccess] at h
  | netError msg => simp [isSuccess] at h

lemma rot_inj {n e j₁ j₂ : Nat} (h₁ : j₁ < n) (h₂ : j₂ < n)
    (h : (e + j₁) % n = (e + j₂) % n) : j₁ = j₂ := by
  have hm : j₁ ≡ j₂ [MOD n] := Nat.ModEq.add_left_cancel' e h
  have hm2 : j₁ % n = j₂ % n := hm
  rwa [Nat.mod_eq_of_lt h₁, Nat.mod_eq_of_lt h₂] at hm2

lemma providers_switch (m : LLMManager) :
    (switch_to_next_provider m).providers = m.providers := by
  unfold switch_to_next_provider
  split <;> rfl

lemma switch_eq_of_le_one (m : LLMManager) (h : m.providers.length ≤ 1) :
    switch_to_next_provider m = m := by
  unfold switch_to_next_provider
  rw [if_pos h]

lemma switch_idx_of_two_le (m : LLMManager) (h : 2 ≤ m.providers.length) :
    (switch_to_next_provider m).current_provider_index
      = (m.current_provider_index + 1) % m.providers.length := by
  unfold switch_to_next_provider
  rw [if_neg (by omega)]

lemma idx_genStep (env : Nat → HttpResponse) (a : Nat) (m : LLMManager) :
    (genStep env a m).current_provider_index = m.current_provider_index := rfl

lemma providers_length_genStep (env : Nat → HttpResponse) (a : Nat)
    (m : LLMManager) :
    (genStep env a m).providers.length = m.providers.length := by
  simp [genStep, length_modifyIdx]

lemma map_staticPart_genStep (env : Nat → HttpResponse) (a : Nat)
    (m : LLMManager) :
    (genStep env a m).providers.map staticPart = m.providers.map staticPart :=
  map_staticPart_modifyIdx _ _ _ (fun q => staticPart_attemptUpdate q _)

/-- Characterization of the generate while-loop: trace shape, rotation
order, result classification and final index, by induction on the
remaining fuel.  n is the registry length and maxAttempts, attempts the
running attempt counter, and the invariant attempts + fuel = n ties the
two together as in the source loop. -/
lemma generateLoop_char (env : Nat → HttpResponse) (n : Nat) :
    ∀ fuel attempts (m : LLMManager),
      attempts + fuel = n →
      m.providers.length = n →
      m.current_provider_index < n →
      ((generateLoop env n fuel attempts m).1.providers.map staticPart
          = m.providers.map staticPart) ∧
      (generateLoop env n fuel attempts m).1.current_provider_index < n ∧
      ((generateLoop env n fuel attempts m).2.1.length ≤ fuel) ∧
      (∀ j : Nat, ∀ hj : j < (generateLoop env n fuel attempts m).2.1.length,
          (generateLoop env n fuel attempts m).2.1.get ⟨j, hj⟩
            = (m.current_provider_index + j) % n) ∧
      ((∀ k, k < fuel → isSuccess (env (attempts + k)) = false) →
          (generateLoop env n fuel attempts m).2.1.length = fuel ∧
          (generateLoop env n fuel attempts m).2.2
            = GenResult.failure "All providers failed" "NONE" ∧
          (0 < fuel →
            (generateLoop env n fuel attempts m).1.current_provider_index
              = (m.current_provider_index + (fuel - 1)) % n) ∧
          (fuel = 0 → (generateLoop env n fuel attempts m).1 = m)) ∧
      (∀ k, k < fuel → isSuccess (env (attempts + k)) = true →
          (∀ j, j < k → isSuccess (env (attempts + j)) = false) →
          (generateLoop env n fuel attempts m).2.1.length = k + 1 ∧
          (generateLoop env n fuel attempts m).1.current_provider_index
            = (m.current_provider_index + k) % n ∧
          ∃ lat c,
            env (attempts + k) = HttpResponse.ok lat (RespBody.wellFormed c) ∧
            (generateLoop env n fuel attempts m).2.2
              = GenResult.success
                  (m.providers.getD
                    ((m.current_provider_index + k) % n) default).name
                  (m.providers.getD
                    ((m.current_provider_index + k) % n) default).model
                  c lat ∧
            ((generateLoop env n fuel attempts m).1.providers.getD
                ((m.current_provider_index + k) % n) default).latency_ms = lat ∧
            ((generateLoop env n fuel attempts m).1.providers.getD
                ((m.current_provider_index + k) % n) default).healthy = true) := by
  intro fuel
  induction fuel with
  | zero =>
      intro attempts m hsum hlen hidx
      refine ⟨rfl, hidx, by simp [generateLoop], ?_, ?_, ?_⟩
      · intro j hj
        simp [generateLoop] at hj
      · intro _
        exact ⟨rfl, rfl, by omega, fun _ => rfl⟩
      · exact fun k hk => absurd hk (Nat.not_lt_zero k)
  | succ fuel ih =>
      intro attempts m hsum hlen hidx
      have hnpos : 0 < n := by omega
      cases hs : isSuccess (env attempts) with
      | true =>
          obtain ⟨lat, c, hr⟩ := isSuccess_elim hs
          have hunf : generateLoop env n (fuel + 1) attempts m
              = (genStep env attempts m, [m.current_provider_index],
                 GenResult.success
                   (m.providers.getD m.current_provider_index default).name
                   (m.providers.getD m.current_provider_index default).model
                   c lat) := by
            simp only [generateLoop, hr, attemptResult]
          rw [hunf]
          dsimp only
          have hmod0 : (m.current_provider_index + 0) % n
              = m.current_provider_index := by
            rw [Nat.add_zero, Nat.mod_eq_of_lt hidx]
          refine ⟨map_staticPart_genStep env attempts m, hidx,
                  by simp,
                  ?_, ?_, ?_⟩
          · intro j hj
            have hj0 : j = 0 := by simpa using hj
            subst hj0
            show m.current_provider_index = (m.current_provider_index + 0) % n
            rw [hmod0]
          · intro hall
            have h0 := hall 0 (by omega)
            rw [Nat.add_zero] at h0
            rw [hs] at h0
            cases h0
          · intro k hk hsk hmin
            have hk0 : k = 0 := by
              by_contra hne
              have := hmin 0 (Nat.pos_of_ne_zero hne)
              rw [Nat.add_zero, hs] at this
              cases this
            subst hk0
            rw [Nat.add_zero] at hsk ⊢
            refine ⟨rfl, ?_, lat, c, hr, ?_, ?_, ?_⟩
            · show m.current_provider_index = (m.current_provider_index + 0) % n
              rw [hmod0]
            · rw [hmod0]
            · rw [hmod0]
              show ((genStep env attempts m).providers.getD
                  m.current_provider_index default).latency_ms = lat
              have := getD_modifyIdx_self m.providers m.current_provider_index
                (fun q => attemptUpdate q (env attempts)) (by omega)
              show ((modifyIdx m.providers m.current_provider_index
                  (fun q => attemptUpdate q (env attempts))).getD
                  m.current_provider_index default).latency_ms = lat
              rw [this, hr]
              rfl
            · rw [hmod0]
              have := getD_modifyIdx_self m.providers m.current_provider_index
                (fun q => attemptUpdate q (env attempts)) (by omega)
              show ((modifyIdx m.providers m.current_provider_index
                  (fun q => attemptUpdate q (env attempts))).getD
                  m.current_provider_index default).healthy = true
              rw [this, hr]
              rfl
      | false =>
          have hnone := attemptResult_eq_none
            (m.providers.getD m.current_provider_index default) hs
          have hunf : generateLoop env n (fuel + 1) attempts m
              = ((generateLoop env n fuel (attempts + 1)
                    (if attempts < n - 1
                     then switch_to_next_provider (genStep env attempts m)
                     else genStep env attempts m)).1,
                 m.current_provider_index ::
                   (generateLoop env n fuel (attempts + 1)
                    (if attempts < n - 1
                     then switch_to_next_provider (genStep env attempts m)
                     else genStep env attempts m)).2.1,
                 (generateLoop env n fuel (attempts + 1)
                    (if attempts < n - 1
                     then switch_to_next_provider (genStep env attempts m)
                     else genStep env attempts m)).2.2) := by
            simp only [generateLoop, hnone]
          by_cases hfc : attempts < n - 1
          · rw [if_pos hfc] at hunf
            have hfpos : 0 < fuel := by omega
            have hn2 : 2 ≤ n := by omega
            have hlenGS : (genStep env attempts m).providers.length = n := by
              rw [providers_length_genStep, hlen]
            have hswidx :
                (switch_to_next_provider
                  (genStep env attempts m)).current_provider_index
                  = (m.current_provider_index + 1) % n := by
              rw [switch_idx_of_two_le _ (by rw [hlenGS]; omega)]
              rw [idx_genStep, hlenGS]
            have hswlen :
                (switch_to_next_provider
                  (genStep env attempts m)).providers.length = n := by
              rw [providers_switch, hlenGS]
            have hswmap :
                (switch_to_next_provider
                  (genStep env attempts m)).providers.map staticPart
                  = m.providers.map staticPart := by
              rw [providers_switch, map_staticPart_genStep]
            have hswlt :
                (switch_to_next_provider
                  (genStep env attempts m)).current_provider_index < n := by
              rw [hswidx]
              exact Nat.mod_lt _ hnpos
            obtain ⟨ih1, ih2, ih3, ih4, ih5, ih6⟩ :=
              ih (attempts + 1) (switch_to_next_provider (genStep env attempts m))
                (by omega) hswlen hswlt
            rw [hunf]
            dsimp only
            refine ⟨ih1.trans hswmap, ih2, by simpa using Nat.succ_le_succ ih3,
                    ?_, ?_, ?_⟩
            · intro j hj
              cases j with
              | zero =>
                  show m.current_provider_index
                    = (m.current_provider_index + 0) % n
                  rw [Nat.add_zero, Nat.mod_eq_of_lt hidx]
              | succ j =>
                  have hj' : j < (generateLoop env n fuel (attempts + 1)
                      (switch_to_next_provider (genStep env attempts m))).2.1.length := by
                    simpa using hj
                  have := ih4 j hj'
                  rw [hswidx] at this
                  show (generateLoop env n fuel (attempts + 1)
                      (switch_to_next_provider (genStep env attempts m))).2.1.get
                      ⟨j, hj'⟩ = (m.current_provider_index + (j + 1)) % n
                  rw [this, Nat.mod_add_mod]
                  congr 1
                  omega
            · intro hall
              have hall' : ∀ k, k < fuel →
                  isSuccess (env (attempts + 1 + k)) = false := by
                intro k hk
                have := hall (k + 1) (by omega)
                rwa [show attempts + (k + 1) = attempts + 1 + k by omega] at this
              obtain ⟨l1, l2, l3, _⟩ := ih5 hall'
              refine ⟨by simpa using l1, l2, ?_, by omega⟩
              intro _
              rw [l3 hfpos, hswidx, Nat.mod_add_mod]
              congr 1
              omega
            · intro k hk hsk hmin
              cases k with
              | zero =>
                  rw [Nat.add_zero, hs] at hsk
                  cases hsk
              | succ k' =>
                  have hsk' : isSuccess (env (attempts + 1 + k')) = true := by
                    rwa [show attempts + 1 + k' = attempts + (k' + 1) by omega]
                  have hmin' : ∀ j, j < k' →
                      isSuccess (env (attempts + 1 + j)) = false := by
                    intro j hj
                    have := hmin (j + 1) (by omega)
                    rwa [show attempts + (j + 1) = attempts + 1 + j by omega]
                      at this
                  obtain ⟨s1, s2, lat, c, sr, s4, s5, s6⟩ :=
                    ih6 k' (by omega) hsk' hmin'
                  have hidxeq :
                      ((switch_to_next_provider
                        (genStep env attempts m)).current_provider_index + k') % n
                      = (m.current_provider_index + (k' + 1)) % n := by
                    rw [hswidx, Nat.mod_add_mod]
                    congr 1
                    omega
                  refine ⟨by simpa using s1, ?_, lat, c, ?_, ?_, ?_, ?_⟩
                  · rw [s2, hidxeq]
                  · rwa [show attempts + (k' + 1) = attempts + 1 + k' by omega]
                  · rw [s4]
                    have hstat := staticPart_getD_of_map_eq
                      (ih1.trans hswmap).symm
                      ((m.current_provider_index + (k' + 1)) % n)
                    have hstat2 := staticPart_getD_of_map_eq hswmap
                      (((switch_to_next_provider
                        (genStep env attempts m)).current_provider_index + k') % n)
                    have h1 := name_model_of_staticPart_eq
                      (hstat2.trans (by rw [hidxeq]))
                    rw [h1.1, h1.2]
                  · rw [← hidxeq]
                    exact s5
                  · rw [← hidxeq]
                    exact s6
          · have hf0 : fuel = 0 := by omega
            subst hf0
            rw [if_neg hfc] at hunf
            have hrec : generateLoop env n 0 (attempts + 1)
                (genStep env attempts m)
                = (genStep env attempts m, [],
                   GenResult.failure "All providers failed" "NONE") := rfl
            rw [hrec] at hunf
            rw [hunf]
            dsimp only
            have hmod0 : (m.current_provider_index + 0) % n
                = m.current_provider_index := by
              rw [Nat.add_zero, Nat.mod_eq_of_lt hidx]
            refine ⟨map_staticPart_genStep env attempts m, hidx,
                    by simp,
                    ?_, ?_, ?_⟩
            · intro j hj
              have hj0 : j = 0 := by simpa using hj
              subst hj0
              show m.current_provider_index
                = (m.current_provider_index + 0) % n
              rw [hmod0]
            · intro _
              refine ⟨rfl, rfl, ?_, by omega⟩
              intro _
              show (genStep env attempts m).current_provider_index
                = (m.current_provider_index + 0) % n
              rw [hmod0, idx_genStep]
            · intro k hk hsk hmin
              have hk0 : k = 0 := by omega
              subst hk0
              rw [Nat.add_zero, hs] at hsk
              cases hsk

lemma isEmpty_false_of_ne_nil {l : List LLMProvider} (h : l ≠ []) :
    l.isEmpty = false := by
  cases hp : l with
  | nil => exact absurd hp h
  | cons a t => rfl

lemma generate_eq_loop (msgs : List ChatMessage) (mt : Nat)
    (env : Nat → HttpResponse) (m : LLMManager) (hne : m.providers ≠ []) :
    generate msgs mt env m
      = generateLoop env m.providers.length m.providers.length 0 m := by
  unfold generate
  rw [isEmpty_false_of_ne_nil hne]
  rfl

/-- generateLoop_char instantiated at the top-level call made by
generate on a non-empty registry: fuel and maxAttempts are the registry
length and the attempt counter starts at 0. -/
lemma generate_char (msgs : List ChatMessage) (mt : Nat)
    (env : Nat → HttpResponse) (m : LLMManager)
    (hne : m.providers ≠ [])
    (hidx : m.current_provider_index < m.providers.length) :
    ((generate msgs mt env m).1.providers.map staticPart
        = m.providers.map staticPart) ∧
    (generate msgs mt env m).1.current_provider_index
        < m.providers.length ∧
    ((generate msgs mt env m).2.1.length ≤ m.providers.length) ∧
    (∀ j : Nat, ∀ hj : j < (generate msgs mt env m).2.1.length,
        (generate msgs mt env m).2.1.get ⟨j, hj⟩
          = (m.current_provider_index + j) % m.providers.length) ∧
    ((∀ k, k < m.providers.length → isSuccess (env k) = false) →
        (generate msgs mt env m).2.1.length = m.providers.length ∧
        (generate msgs mt env m).2.2
          = GenResult.failure "All providers failed" "NONE" ∧
        (generate msgs mt env m).1.current_provider_index
          = (m.current_provider_index + (m.providers.length - 1))
              % m.providers.length) ∧
    (∀ k, k < m.providers.length → isSuccess (env k) = true →
        (∀ j, j < k → isSuccess (env j) = false) →
        (generate msgs mt env m).2.1.length = k + 1 ∧
        (generate msgs mt env m).1.current_provider_index
          = (m.current_provider_index + k) % m.providers.length ∧
        ∃ lat c,
          env k = HttpResponse.ok lat (RespBody.wellFormed c) ∧
          (generate msgs mt env m).2.2
            = GenResult.success
                (m.providers.getD
                  ((m.current_provider_index + k) % m.providers.length)
                  default).name
                (m.providers.getD
                  ((m.current_provider_index + k) % m.providers.length)
                  default).model
                c lat ∧
          ((generate msgs mt env m).1.providers.getD
              ((m.current_provider_index + k) % m.providers.length)
              default).latency_ms = lat ∧
          ((generate msgs mt env m).1.providers.getD
              ((m.current_provider_index + k) % m.providers.length)
              default).healthy = true) := by
  have hg := generate_eq_loop msgs mt env m hne
  have hpos : 0 < m.providers.length := List.length_pos.mpr hne
  obtain ⟨h1, h2, h3, h4, h5, h6⟩ :=
    generateLoop_char env m.providers.length m.providers.length 0 m
      (Nat.zero_add _) rfl hidx
  simp only [Nat.zero_add] at h5 h6
  rw [hg]
  refine ⟨h1, h2, h3, h4, ?_, h6⟩
  intro hall
  obtain ⟨l1, l2, l3, _⟩ := h5 hall
  exact ⟨l1, l2, l3 hpos⟩

lemma rot_full_ne {n e : Nat} (he : e < n) (hn : 2 ≤ n) :
    (e + (n - 1)) % n ≠ e := by
  rcases Nat.eq_zero_or_pos e with he0 | hep
  · subst he0
    rw [Nat.zero_add, Nat.mod_eq_of_lt (by omega)]
    omega
  · have h : e + (n - 1) = (e - 1) + n := by omega
    rw [h, Nat.add_mod_right, Nat.mod_eq_of_lt (by omega)]
    omega

/-
Claim theorems.
-/

/-- C4: when the provider registry is empty, generate returns
immediately a failure result carrying provider name NONE and the
descriptive error string of the early-return branch, contacts no
provider (empty trace) and mutates no state (the manager is returned
unchanged). -/
theorem generate_empty_registry (msgs : List ChatMessage) (mt : Nat)
    (env : Nat → HttpResponse) (m : LLMManager) (h : m.providers = []) :
    generate msgs mt env m
      = (m, [], GenResult.failure "No LLM providers configured" "NONE") := by
  unfold generate
  rw [h]
  rfl

/-- Witness for C4 at a concrete empty manager. -/
theorem generate_empty_registry_witness :
    generate msgsHi 1024 envAllFail
        { providers := [], current_provider_index := 0 }
      = ({ providers := [], current_provider_index := 0 }, [],
         GenResult.failure "No LLM providers configured" "NONE") :=
  generate_empty_registry msgsHi 1024 envAllFail
    { providers := [], current_provider_index := 0 } rfl

/-- C5: switch_to_next_provider is a no-op when fewer than two providers
exist and otherwise advances current_provider_index to
(current_provider_index + 1) mod len(providers) while leaving the
registry untouched; and within a single generate call, each attempt
after a failed one contacts the index one past the previous attempt's
index, modulo the registry length. -/
theorem rotate_spec :
    (∀ m : LLMManager, m.providers.length ≤ 1 →
        switch_to_next_provider m = m) ∧
    (∀ m : LLMManager, 2 ≤ m.providers.length →
        (switch_to_next_provider m).current_provider_index
            = (m.current_provider_index + 1) % m.providers.length ∧
        (switch_to_next_provider m).providers = m.providers) ∧
    (∀ (msgs : List ChatMessage) (mt : Nat) (env : Nat → HttpResponse)
        (m : LLMManager), m.providers ≠ [] →
        m.current_provider_index < m.providers.length →
        ∀ j : Nat, ∀ hj : j + 1 < (generate msgs mt env m).2.1.length,
          (generate msgs mt env m).2.1.get ⟨j + 1, hj⟩
            = ((generate msgs mt env m).2.1.get ⟨j, Nat.lt_of_succ_lt hj⟩ + 1)
                % m.providers.length) := by
  refine ⟨switch_eq_of_le_one, ?_, ?_⟩
  · intro m h
    exact ⟨switch_idx_of_two_le m h, providers_switch m⟩
  · intro msgs mt env m hne hidx j hj
    obtain ⟨-, -, -, h4, -, -⟩ := generate_char msgs mt env m hne hidx
    rw [h4 (j + 1) hj, h4 j (Nat.lt_of_succ_lt hj), Nat.mod_add_mod]
    congr 1

/-- Witness for C5: rotating the concrete two-provider registry. -/
theorem rotate_spec_witness :
    (switch_to_next_provider mgr2).current_provider_index
        = (mgr2.current_provider_index + 1) % mgr2.providers.length ∧
    (switch_to_next_provider mgr2).providers = mgr2.providers :=
  rotate_spec.2.1 mgr2 (by decide)

/-- C3: health_check is total for every provider argument and network
outcome — exceptions are converted into a false return plus recorded
diagnostics, and the default call on an empty registry returns false
without touching any state.  Whenever a response round trip completes
(HTTP 200 or any non-200 status) both latency_ms and healthy of the
targeted provider are updated, with last_error additionally set on a
non-200 status; the returned boolean always equals the health recorded
on the targeted provider. -/
theorem health_check_spec :
    (∀ (m : LLMManager) (r : HttpResponse), m.providers = [] →
        health_check m none r = (m, false)) ∧
    (∀ (m : LLMManager) (pi : Option Nat) (r : HttpResponse),
        pi.getD m.current_provider_index < m.providers.length →
        ((health_check m pi r).2
            = ((health_check m pi r).1.providers.getD
                (pi.getD m.current_provider_index) default).healthy) ∧
        (∀ lat b, r = HttpResponse.ok lat b →
            ((health_check m pi r).1.providers.getD
                (pi.getD m.current_provider_index) default).latency_ms = lat ∧
            ((health_check m pi r).1.providers.getD
                (pi.getD m.current_provider_index) default).healthy = true ∧
            ((health_check m pi r).1.providers.getD
                (pi.getD m.current_provider_index) default).last_error
              = (m.providers.getD
                  (pi.getD m.current_provider_index) default).last_error) ∧
        (∀ lat st bt, r = HttpResponse.httpError lat st bt →
            ((health_check m pi r).1.providers.getD
                (pi.getD m.current_provider_index) default).latency_ms = lat ∧
            ((health_check m pi r).1.providers.getD
                (pi.getD m.current_provider_index) default).healthy = false ∧
            ((health_check m pi r).1.providers.getD
                (pi.getD m.current_provider_index) default).last_error
              = some ("HTTP " ++ toString st)) ∧
        (∀ msg, r = HttpResponse.netError msg →
            ((health_check m pi r).1.providers.getD
                (pi.getD m.current_provider_index) default).healthy = false ∧
            ((health_check m pi r).1.providers.getD
                (pi.getD m.current_provider_index) default).last_error
              = some msg ∧
            ((health_check m pi r).1.providers.getD
                (pi.getD m.current_provider_index) default).latency_ms
              = (m.providers.getD
                  (pi.getD m.current_provider_index) default).latency_ms)) := by
  constructor
  · intro m r h
    unfold health_check
    rw [h]
    rfl
  · intro m pi r ht
    have key :
        (health_check m pi r).1.providers.getD
            (pi.getD m.current_provider_index) default
          = probeUpdate
              (m.providers.getD (pi.getD m.current_provider_index) default) r := by
      cases pi with
      | none =>
          have hne : m.providers ≠ [] := by
            intro hc
            rw [hc] at ht
            simp at ht
          unfold health_check
          rw [isEmpty_false_of_ne_nil hne]
          exact getD_modifyIdx_self m.providers _ _ ht
      | some i =>
          unfold health_check
          exact getD_modifyIdx_self m.providers _ _ ht
    have hsnd : (health_check m pi r).2 = probeOk r := by
      cases pi with
      | none =>
          have hne : m.providers ≠ [] := by
            intro hc
            rw [hc] at ht
            simp at ht
          unfold health_check
          rw [isEmpty_false_of_ne_nil hne]
          rfl
      | some i => rfl
    refine ⟨?_, ?_, ?_, ?_⟩
    · rw [key, hsnd]
      cases r <;> rfl
    · intro lat b hr
      subst hr
      rw [key]
      exact ⟨rfl, rfl, rfl⟩
    · intro lat st bt hr
      subst hr
      rw [key]
      exact ⟨rfl, rfl, rfl⟩
    · intro msg hr
      subst hr
      rw [key]
      exact ⟨rfl, rfl, rfl⟩

/-- Witness for C3: probing the second concrete provider with a 503
response updates latency, health and diagnostic on it. -/
theorem health_check_spec_witness :
    ((health_check mgr2 (some 1)
        (HttpResponse.httpError 12 503 "unavailable")).1.providers.getD 1
        default).latency_ms = 12 ∧
    ((health_check mgr2 (some 1)
        (HttpResponse.httpError 12 503 "unavailable")).1.providers.getD 1
        default).healthy = false ∧
    ((health_check mgr2 (some 1)
        (HttpResponse.httpError 12 503 "unavailable")).1.providers.getD 1
        default).last_error = some ("HTTP " ++ toString 503) :=
  ((health_check_spec.2 mgr2 (some 1)
      (HttpResponse.httpError 12 503 "unavailable")
      (by decide)).2.2.1 12 503 "unavailable" rfl)

/-- C1: on a non-empty registry, generate contacts providers one at a
time in rotated order starting from the call-entry
current_provider_index (attempt j contacts index (entry + j) mod n),
performs at most n attempts, each registry index at most once (the trace
has no duplicates), every attempt before the last one was a failure (the
call stops at the first HTTP-200 success), and if the provider at the
call-entry index succeeds the trace is exactly that single index and the
index is left unrotated. -/
theorem generate_rotated_single_pass (msgs : List ChatMessage) (mt : Nat)
    (env : Nat → HttpResponse) (m : LLMManager)
    (hne : m.providers ≠ [])
    (hidx : m.current_provider_index < m.providers.length) :
    (generate msgs mt env m).2.1.length ≤ m.providers.length ∧
    (generate msgs mt env m).2.1.Nodup ∧
    (∀ j : Nat, ∀ hj : j < (generate msgs mt env m).2.1.length,
        (generate msgs mt env m).2.1.get ⟨j, hj⟩
          = (m.current_provider_index + j) % m.providers.length) ∧
    (∀ j : Nat, j + 1 < (generate msgs mt env m).2.1.length →
        isSuccess (env j) = false) ∧
    (isSuccess (env 0) = true →
        (generate msgs mt env m).2.1 = [m.current_provider_index] ∧
        (generate msgs mt env m).1.current_provider_index
          = m.current_provider_index) := by
  obtain ⟨-, -, h3, h4, -, h6⟩ := generate_char msgs mt env m hne hidx
  refine ⟨h3, ?_, h4, ?_, ?_⟩
  · rw [List.nodup_iff_injective_get]
    intro a b hab
    have ha := h4 a.1 a.2
    have hb := h4 b.1 b.2
    rw [hab] at ha
    rw [ha] at hb
    exact Fin.ext (rot_inj (lt_of_lt_of_le a.2 h3) (lt_of_lt_of_le b.2 h3) hb)
  · intro j hj
    by_contra hsj
    have hsj' : isSuccess (env j) = true := by
      cases h : isSuccess (env j) with
      | false => exact absurd h hsj
      | true => rfl
    have hex : ∃ k, isSuccess (env k) = true := ⟨j, hsj'⟩
    have hk₀j : Nat.find hex ≤ j := Nat.find_min' hex hsj'
    have hjn : j < m.providers.length := by
      have := lt_of_lt_of_le hj h3
      omega
    have hmin : ∀ i, i < Nat.find hex → isSuccess (env i) = false := by
      intro i hi
      have := Nat.find_min hex hi
      cases h : isSuccess (env i) with
      | false => rfl
      | true => exact absurd h this
    obtain ⟨hlength, -⟩ :=
      h6 (Nat.find hex) (by omega) (Nat.find_spec hex) hmin
    omega
  · intro hs0
    have hn0 : 0 < m.providers.length := List.length_pos.mpr hne
    obtain ⟨hlength, hfin, -⟩ :=
      h6 0 hn0 hs0 (fun j hj => absurd hj (Nat.not_lt_zero j))
    have hmod0 : (m.current_provider_index + 0) % m.providers.length
        = m.current_provider_index := by
      rw [Nat.add_zero, Nat.mod_eq_of_lt hidx]
    refine ⟨?_, by rw [hfin, hmod0]⟩
    refine List.ext_get (by simp [hlength]) ?_
    intro j h₁ h₂
    have hj0 : j = 0 := by
      simp at h₂
      omega
    subst hj0
    rw [h4 0 h₁, hmod0]
    rfl

/-- Witness for C1: with the concrete two-provider registry and an
environment whose first attempt succeeds, the call contacts only the
entry provider and performs no rotation. -/
theorem generate_rotated_single_pass_witness :
    (generate msgsHi 1024 envFirstOk mgr2).2.1
        = [mgr2.current_provider_index] ∧
    (generate msgsHi 1024 envFirstOk mgr2).1.current_provider_index
        = mgr2.current_provider_index :=
  (generate_rotated_single_pass msgsHi 1024 envFirstOk mgr2
      (by decide) (by decide)).2.2.2.2 (by decide)

/-- C2: when every provider fails within one call on a non-empty
registry, generate returns the failure dict with provider NONE and a
non-empty error, and current_provider_index is left at the position the
last rotation of the failed sequence produced, (entry + n - 1) mod n,
which differs from the call-entry value whenever at least two providers
exist (sticky rotation: the next call starts there). -/
theorem generate_all_fail_sticky (msgs : List ChatMessage) (mt : Nat)
    (env : Nat → HttpResponse) (m : LLMManager)
    (hne : m.providers ≠ [])
    (hidx : m.current_provider_index < m.providers.length)
    (hall : ∀ k, k < m.providers.length → isSuccess (env k) = false) :
    (generate msgs mt env m).2.2
        = GenResult.failure "All providers failed" "NONE" ∧
    (generate msgs mt env m).1.current_provider_index
        = (m.current_provider_index + (m.providers.length - 1))
            % m.providers.length ∧
    (2 ≤ m.providers.length →
        (generate msgs mt env m).1.current_provider_index
          ≠ m.current_provider_index) := by
  obtain ⟨-, -, -, -, h5, -⟩ := generate_char msgs mt env m hne hidx
  obtain ⟨-, l2, l3⟩ := h5 hall
  refine ⟨l2, l3, ?_⟩
  intro h2
  rw [l3]
  exact rot_full_ne hidx h2

/-- Witness for C2: both concrete providers fail with a connection
error; the result is the NONE failure and the index ends rotated to 1,
different from the entry index 0. -/
theorem generate_all_fail_sticky_witness :
    (generate msgsHi 1024 envAllFail mgr2).2.2
        = GenResult.failure "All providers failed" "NONE" ∧
    (generate msgsHi 1024 envAllFail mgr2).1.current_provider_index
        = (mgr2.current_provider_index + (mgr2.providers.length - 1))
            % mgr2.providers.length :=
  have h := generate_all_fail_sticky msgsHi 1024 envAllFail mgr2
    (by decide) (by decide) (by decide)
  ⟨h.1, h.2.1⟩

/-- C6 counterexample: an HTTP-200 response whose parsed content is the
empty string yields a success result whose content is empty — generate
performs no non-emptiness check on the extracted content, so a success
result does not always carry non-empty content. -/
theorem generate_success_empty_content_cex :
    (generate msgsHi 1024 envEmptyContent mgr2).2.2
      = GenResult.success "LOCAL" "llama" "" 7 := by decide

/-- C6 amended: every success result carries the content string
extracted from the winning HTTP-200 response (which may be empty), the
serving provider's name and model, and the measured latency, which is
also recorded on that provider; every failure result on a non-empty
registry carries the non-empty error "All providers failed" and
provider name "NONE". -/
theorem generate_result_shape (msgs : List ChatMessage) (mt : Nat)
    (env : Nat → HttpResponse) (m : LLMManager)
    (hne : m.providers ≠ [])
    (hidx : m.current_provider_index < m.providers.length) :
    (∀ nm md c lat,
        (generate msgs mt env m).2.2 = GenResult.success nm md c lat →
        ∃ k, k < m.providers.length ∧
          env k = HttpResponse.ok lat (RespBody.wellFormed c) ∧
          nm = (m.providers.getD
              ((m.current_provider_index + k) % m.providers.length)
              default).name ∧
          md = (m.providers.getD
              ((m.current_provider_index + k) % m.providers.length)
              default).model ∧
          ((generate msgs mt env m).1.providers.getD
              ((m.current_provider_index + k) % m.providers.length)
              default).latency_ms = lat) ∧
    (∀ err pv,
        (generate msgs mt env m).2.2 = GenResult.failure err pv →
        err = "All providers failed" ∧ pv = "NONE") := by
  obtain ⟨-, -, -, -, h5, h6⟩ := generate_char msgs mt env m hne hidx
  by_cases hex : ∃ k, k < m.providers.length ∧ isSuccess (env k) = true
  · have hkn : Nat.find hex < m.providers.length := (Nat.find_spec hex).1
    have hmin : ∀ i, i < Nat.find hex → isSuccess (env i) = false := by
      intro i hi
      have hni := Nat.find_min hex hi
      cases h : isSuccess (env i) with
      | false => rfl
      | true => exact absurd ⟨by omega, h⟩ hni
    obtain ⟨-, -, lat, c, hr, hres, hlat, -⟩ :=
      h6 (Nat.find hex) hkn (Nat.find_spec hex).2 hmin
    constructor
    · intro nm md c' lat' hres'
      rw [hres] at hres'
      simp only [GenResult.success.injEq] at hres'
      obtain ⟨e1, e2, e3, e4⟩ := hres'
      refine ⟨Nat.find hex, hkn, ?_, e1.symm, e2.symm, ?_⟩
      · rw [← e3, ← e4]
        exact hr
      · rw [← e4]
        exact hlat
    · intro err pv hres'
      rw [hres] at hres'
      cases hres'
  · have hall : ∀ k, k < m.providers.length → isSuccess (env k) = false := by
      intro k hk
      cases h : isSuccess (env k) with
      | false => rfl
      | true => exact absurd ⟨k, hk, h⟩ hex
    obtain ⟨-, hres, -⟩ := h5 hall
    constructor
    · intro nm md c lat hres'
      rw [hres] at hres'
      cases hres'
    · intro err pv hres'
      rw [hres] at hres'
      simp only [GenResult.failure.injEq] at hres'
      exact ⟨hres'.1.symm, hres'.2.symm⟩

/-- Witness for C6 amended: the concrete first-attempt success is traced
back to attempt 0 against the LOCAL provider with its measured latency. -/
theorem generate_result_shape_witness :
    ∃ k, k < mgr2.providers.length ∧
      envFirstOk k = HttpResponse.ok 7 (RespBody.wellFormed "Hello") ∧
      "LOCAL" = (mgr2.providers.getD
          ((mgr2.current_provider_index + k) % mgr2.providers.length)
          default).name ∧
      "llama" = (mgr2.providers.getD
          ((mgr2.current_provider_index + k) % mgr2.providers.length)
          default).model ∧
      ((generate msgsHi 1024 envFirstOk mgr2).1.providers.getD
          ((mgr2.current_provider_index + k) % mgr2.providers.length)
          default).latency_ms = 7 :=
  (generate_result_shape msgsHi 1024 envFirstOk mgr2
      (by decide) (by decide)).1 "LOCAL" "llama" "Hello" 7 (by decide)

/-- C7 counterexample: with the local endpoint absent (empty string) and
no OpenAI key, the clawdbot/bot.py provider-list construction still
appends a LOCAL provider instead of omitting it, so the registry is
["LOCAL"] rather than empty — the claim"s "LOCAL only when the local
endpoint is configured" fails on that construction. -/
theorem clawdbot_local_unconditional_cex :
    cfgNone.LOCAL_LLM_API_BASE = "" ∧
    (clawdbot_setup_providers cfgNone).map LLMProvider.name = ["LOCAL"] := by
  decide

/-- C7 amended: in bot.py the construction is as claimed — LOCAL is
appended only when the local endpoint is configured, then OPENAI only
when a key is present, with the fixed endpoint, model and 30-second
timeout, and absent configuration merely shrinks the list (priority
order LOCAL then OPENAI when both are present); in the legacy
clawdbot/bot.py the LOCAL provider is appended unconditionally, followed
by the same conditional OPENAI fallback. -/
theorem setup_providers_conditional (c : Config) :
    (c.LOCAL_LLM_API_BASE = "" →
        ∀ p ∈ setup_providers c, p.name ≠ "LOCAL") ∧
    (c.LOCAL_LLM_API_BASE ≠ "" →
        ∃ p ∈ setup_providers c, p.name = "LOCAL" ∧
          p.api_base = c.LOCAL_LLM_API_BASE ∧ p.api_key = none) ∧
    (truthyOpt c.OPENAI_API_KEY = true →
        ∃ p ∈ setup_providers c, p.name = "OPENAI" ∧
          p.api_base = "https://api.openai.com/v1" ∧
          p.model = "gpt-4o-mini" ∧ p.timeout = 30 ∧
          p.api_key = c.OPENAI_API_KEY) ∧
    (truthyOpt c.OPENAI_API_KEY = false →
        ∀ p ∈ setup_providers c, p.name ≠ "OPENAI") ∧
    (c.LOCAL_LLM_API_BASE ≠ "" → truthyOpt c.OPENAI_API_KEY = true →
        (setup_providers c).map LLMProvider.name = ["LOCAL", "OPENAI"]) ∧
    ((clawdbot_setup_providers c).map LLMProvider.name
        = "LOCAL" :: (if truthyOpt c.OPENAI_API_KEY then ["OPENAI"] else [])) := by
  refine ⟨?_, ?_, ?_, ?_, ?_, ?_⟩
  · intro hl p hp
    rw [setup_providers, if_neg (by simp [hl])] at hp
    by_cases hk : truthyOpt c.OPENAI_API_KEY
    · rw [if_pos hk] at hp
      simp at hp
      rw [hp]
      show ("OPENAI" : String) ≠ "LOCAL"
      decide
    · rw [if_neg hk] at hp
      simp at hp
  · intro hl
    rw [setup_providers, if_pos hl]
    refine ⟨{ name := "LOCAL", api_base := c.LOCAL_LLM_API_BASE,
              model := if c.LOCAL_LLM_MODEL ≠ "" then c.LOCAL_LLM_MODEL
                       else "default",
              timeout := c.LOCAL_LLM_TIMEOUT },
            ?_, rfl, rfl, rfl⟩
    simp
  · intro hk
    rw [setup_providers, if_pos hk]
    refine ⟨{ name := "OPENAI", api_base := "https://api.openai.com/v1",
              model := "gpt-4o-mini", api_key := c.OPENAI_API_KEY,
              timeout := 30 },
            ?_, rfl, rfl, rfl, rfl, rfl⟩
    simp
  · intro hk p hp
    rw [setup_providers] at hp
    rcases List.mem_append.mp hp with h | h
    · by_cases hl : c.LOCAL_LLM_API_BASE ≠ ""
      · rw [if_pos hl] at h
        simp at h
        rw [h]
        show ("LOCAL" : String) ≠ "OPENAI"
        decide
      · rw [if_neg hl] at h
        simp at h
    · rw [if_neg (by simp [hk])] at h
      simp at h
  · intro hl hk
    rw [setup_providers, if_pos hl, if_pos hk]
    rfl
  · rw [clawdbot_setup_providers]
    by_cases hk : truthyOpt c.OPENAI_API_KEY
    · rw [if_pos hk, if_pos hk]
      rfl
    · rw [if_neg hk, if_neg hk]
      rfl

/-- Witness for C7 amended: with both backends configured, bot.py builds
exactly the priority list LOCAL then OPENAI. -/
theorem setup_providers_conditional_witness :
    (setup_providers cfgBoth).map LLMProvider.name = ["LOCAL", "OPENAI"] :=
  (setup_providers_conditional cfgBoth).2.2.2.2.1 (by decide) (by decide)

/-- C8 counterexample: a provider carrying a stale last_error from an
earlier failure is served successfully by generate, yet its last_error
is not cleared — neither the HTTP-200 branch of generate nor the one of
health_check ever writes last_error. -/
theorem success_keeps_stale_last_error_cex :
    (generate msgsHi 1024 envFirstOk mgr1stale).2.2
        = GenResult.success "LOCAL" "llama" "Hello" 7 ∧
    ((generate msgsHi 1024 envFirstOk mgr1stale).1.providers.getD 0
        default).last_error = some "old failure" := by
  decide

/-- C8 amended: a successful call leaves last_error exactly as it was —
the HTTP-200 branches of both the generate loop body and health_check
write latency_ms and healthy but never last_error; the field is only
written by failure branches. -/
theorem success_leaves_last_error_unchanged :
    (∀ (p : LLMProvider) (lat : Nat) (c : String),
        (attemptUpdate p (HttpResponse.ok lat (RespBody.wellFormed c))).last_error
          = p.last_error) ∧
    (∀ (p : LLMProvider) (lat : Nat) (b : RespBody),
        (probeUpdate p (HttpResponse.ok lat b)).last_error = p.last_error) :=
  ⟨fun _ _ _ => rfl, fun _ _ _ => rfl⟩

/-- C10 counterexample: a failed generate attempt caused by an HTTP-200
response with a malformed body does update the attempted provider's
latency_ms (5 becomes 42), because generate writes latency_ms before
parsing the body — refuting the claim that every failed attempt leaves
latency_ms unchanged. -/
theorem malformed_body_updates_latency_cex :
    (mgr1lat.providers.getD 0 default).latency_ms = 5 ∧
    ((generate msgsHi 1024 envMalformed mgr1lat).1.providers.getD 0
        default).latency_ms = 42 ∧
    (generate msgsHi 1024 envMalformed mgr1lat).2.2
        = GenResult.failure "All providers failed" "NONE" := by
  decide

/-- C10 amended: within the generate loop body, a failed attempt due to
a non-200 status or a network exception leaves latency_ms unchanged and
writes only healthy and last_error; a failed attempt due to a malformed
body of an HTTP-200 response does update latency_ms to the measured
value (it is written before parsing); a successful attempt writes the
measured latency; and health_check updates latency_ms on non-200
responses as well. -/
theorem latency_write_discipline :
    (∀ (p : LLMProvider) (lat st : Nat) (bt : String),
        (attemptUpdate p (HttpResponse.httpError lat st bt)).latency_ms
            = p.latency_ms ∧
        (attemptUpdate p (HttpResponse.httpError lat st bt)).healthy = false ∧
        (attemptUpdate p (HttpResponse.httpError lat st bt)).last_error
            = some ("HTTP " ++ toString st ++ ": " ++ bt.take 200)) ∧
    (∀ (p : LLMProvider) (msg : String),
        (attemptUpdate p (HttpResponse.netError msg)).latency_ms
            = p.latency_ms ∧
        (attemptUpdate p (HttpResponse.netError msg)).healthy = false ∧
        (attemptUpdate p (HttpResponse.netError msg)).last_error = some msg) ∧
    (∀ (p : LLMProvider) (lat : Nat) (msg : String),
        (attemptUpdate p (HttpResponse.ok lat (RespBody.malformed msg))).latency_ms
            = lat ∧
        (attemptUpdate p (HttpResponse.ok lat (RespBody.malformed msg))).healthy
            = false) ∧
    (∀ (p : LLMProvider) (lat : Nat) (c : String),
        (attemptUpdate p (HttpResponse.ok lat (RespBody.wellFormed c))).latency_ms
            = lat) ∧
    (∀ (p : LLMProvider) (lat st : Nat) (bt : String),
        (probeUpdate p (HttpResponse.httpError lat st bt)).latency_ms = lat) :=
  ⟨fun _ _ _ _ => ⟨rfl, rfl, rfl⟩, fun _ _ => ⟨rfl, rfl, rfl⟩,
   fun _ _ _ => ⟨rfl, rfl⟩, fun _ _ _ => rfl, fun _ _ _ _ => rfl⟩

/-- C9: after construction on a non-empty registry the current index is
in range (it is 0), and every operation preserves the in-range invariant
while never changing the registry's membership or order — rotation never
touches the provider list, and generate and health_check only rewrite
the mutable health/diagnostic/latency fields, leaving the static part
(name, endpoint, model, credential, timeout) of every position intact;
health_check additionally never moves the current index. -/
theorem manager_invariants :
    (∀ c : Config, (initManager c).providers ≠ [] →
        (initManager c).current_provider_index
          < (initManager c).providers.length) ∧
    (∀ m : LLMManager, m.current_provider_index < m.providers.length →
        (switch_to_next_provider m).current_provider_index
            < (switch_to_next_provider m).providers.length ∧
        (switch_to_next_provider m).providers = m.providers) ∧
    (∀ (msgs : List ChatMessage) (mt : Nat) (env : Nat → HttpResponse)
        (m : LLMManager), m.current_provider_index < m.providers.length →
        (generate msgs mt env m).1.current_provider_index
            < (generate msgs mt env m).1.providers.length ∧
        (generate msgs mt env m).1.providers.map staticPart
            = m.providers.map staticPart) ∧
    (∀ (m : LLMManager) (pi : Option Nat) (r : HttpResponse),
        (health_check m pi r).1.current_provider_index
            = m.current_provider_index ∧
        (health_check m pi r).1.providers.map staticPart
            = m.providers.map staticPart) := by
  refine ⟨?_, ?_, ?_, ?_⟩
  · intro c hne
    exact List.length_pos.mpr hne
  · intro m hidx
    by_cases h : m.providers.length ≤ 1
    · rw [switch_eq_of_le_one m h]
      exact ⟨hidx, rfl⟩
    · refine ⟨?_, providers_switch m⟩
      rw [switch_idx_of_two_le m (by omega), providers_switch]
      exact Nat.mod_lt _ (by omega)
  · intro msgs mt env m hidx
    have hne : m.providers ≠ [] := by
      intro hc
      rw [hc] at hidx
      simp at hidx
    obtain ⟨h1, h2, -, -, -, -⟩ := generate_char msgs mt env m hne hidx
    have hlen : (generate msgs mt env m).1.providers.length
        = m.providers.length := by
      have := congrArg List.length h1
      simpa using this
    exact ⟨by rw [hlen]; exact h2, h1⟩
  · intro m pi r
    cases pi with
    | none =>
        by_cases he : m.providers.isEmpty
        · unfold health_check
          rw [he]
          exact ⟨rfl, rfl⟩
        · unfold health_check
          rw [Bool.not_eq_true] at he
          rw [he]
          exact ⟨rfl, map_staticPart_modifyIdx _ _ _
            (fun q => staticPart_probeUpdate q r)⟩
    | some i =>
        exact ⟨rfl, map_staticPart_modifyIdx _ _ _
          (fun q => staticPart_probeUpdate q r)⟩

/-- Witness for C9: the all-fail generate call on the concrete registry
keeps the index in range and the static registry intact. -/
theorem manager_invariants_witness :
    (generate msgsHi 1024 envAllFail mgr2).1.current_provider_index
        < (generate msgsHi 1024 envAllFail mgr2).1.providers.length ∧
    (generate msgsHi 1024 envAllFail mgr2).1.providers.map staticPart
        = mgr2.providers.map staticPart :=
  manager_invariants.2.2.1 msgsHi 1024 envAllFail mgr2 (by decide)
